import Mathlib

/-
Verification of the route-registration module `routes.py` (class `Routes`,
subclass `LazyRoutes`, helper `check_if_list`, module-level instances
`lazy_routes` and `routes`).

Python mutation is embedded as explicit state passing: an operation on the
registry takes a `RoutesState` and returns the new state paired with
`Option PyErr`.  A `some e` second component means the Python call raised
exception `e`; the first component is then the state as mutated up to the
point of the raise (Python exceptions do not roll back earlier mutations,
which matters for the atomicity analysis of `Routes.add`).
-/

/-- Python exception values raised by the routes module, as structured data.
Each constructor records the Python exception class and the data that the
source interpolates into the message string:
* `valueErrorDuplicate route` — `ValueError("Cannot have duplicates of unformatted routes: ... already exists.")` from `_check_if_format_exists`;
* `typeErrorNonStringIterable x` — `TypeError("Must be a non-string iterable: ...")` from `check_if_list`;
* `typeErrorNotIterable` — `TypeError("Must be an iterable: ...")` from `check_if_list`;
* `indexErrorOutOfRange` — `IndexError` from `str.format` when a positional field has no argument;
* `valueErrorBadFormatField` — `ValueError` from `str.format` on a malformed or unsupported replacement field;
* `typeErrorKwargsNotDict` — `TypeError("Must pass in a dictionary for kwargs.")` from `add_list`;
* `typeErrorMultipleValues param` — `TypeError("got multiple values for argument ...")` from Python call binding;
* `attributeErrorNoRoutes viewName` — `AttributeError("routes variable not defined on view ...")` from `add_view`;
* `attributeError a` — `AttributeError` from looking up a missing attribute (e.g. on the Django settings object);
* `valueErrorBadAutoCreate opt` — the `ValueError` that line 60 of `__init__` intends to raise for a bad `ROUTE_AUTO_CREATE` option. -/
inductive PyErr where
  | valueErrorDuplicate (route : String)
  | typeErrorNonStringIterable (x : String)
  | typeErrorNotIterable
  | indexErrorOutOfRange
  | valueErrorBadFormatField
  | typeErrorKwargsNotDict
  | typeErrorMultipleValues (param : String)
  | attributeErrorNoRoutes (viewName : String)
  | attributeError (a : String)
  | valueErrorBadAutoCreate (opt : String)
deriving DecidableEq

/-- Whether a raised exception is (an instance of) Python's `TypeError`. -/
def PyErr.isTypeError : PyErr → Bool
  | .typeErrorNonStringIterable _ => true
  | .typeErrorNotIterable => true
  | .typeErrorKwargsNotDict => true
  | .typeErrorMultipleValues _ => true
  | _ => false

deriving instance DecidableEq for Except

/-- A Python value stored in a kwargs dictionary: the module only ever reads
booleans (`add_ending`) and strings (`django_url_name`) out of kwargs. -/
inductive KwVal where
  | b (v : Bool)
  | s (v : String)
deriving DecidableEq

/-- Python truthiness of a kwargs value (`bool(v)`): a bool is itself, a
string is truthy iff non-empty. -/
def KwVal.truthy : KwVal → Bool
  | .b v => v
  | .s v => !(v == "")

/-- A Python `dict` with string keys, as an association list with unique keys
(in Python key-insertion order). -/
abbrev KwDict := List (String × KwVal)

/-- Python `d[k]` lookup / `d.get(k)`: first (unique) binding of `k`. -/
def dictGet : KwDict → String → Option KwVal
  | [], _ => none
  | p :: d, k => if p.1 = k then some p.2 else dictGet d k

/-- Python `k in d`. -/
def dictHas (d : KwDict) (k : String) : Bool :=
  (dictGet d k).isSome

/-- Python `d[k] = v`: replace the binding of `k` in place, or append a new
binding when `k` is absent. -/
def dictSet : KwDict → String → KwVal → KwDict
  | [], k, v => [(k, v)]
  | p :: d, k, v => if p.1 = k then (k, v) :: d else p :: dictSet d k v

/-- Removal of a key, used to model Python's `**kwargs` call binding: an
entry that binds a declared parameter does not reach the callee's `**kwargs`. -/
def dictRemove : KwDict → String → KwDict
  | [], _ => []
  | p :: d, k => if p.1 = k then dictRemove d k else p :: dictRemove d k

/-- Python `dst.update`-style merge used by `add_list`:
`route_kwargs = kwargs.copy(); for k, v in d.items(): route_kwargs[k] = v`. -/
def mergeList (kw : KwDict) (d : KwDict) : KwDict :=
  d.foldl (fun a p => dictSet a p.1 p.2) kw

/-- The shape of a Python object with respect to `check_if_list`: a `str`
(iterable, but rejected), a non-string iterable of elements of type `α`, or
an object with neither `__getitem__` nor `__iter__`. -/
inductive PyIter (α : Type) where
  | pystr (s : String)
  | iter (xs : List α)
  | notIter
deriving DecidableEq

/-- The elements obtained by iterating / unpacking the object.  Only reached
after `check_if_list` succeeded, i.e. in the `iter` case. -/
def iterElems {α : Type} : PyIter α → List α
  | .iter xs => xs
  | _ => []

/-- `check_if_list(lst)` (module level, lines 15-23): raise `TypeError` for a
string, raise `TypeError` for an object that has neither `__getitem__` nor
`__iter__`, otherwise return normally. -/
def check_if_list {α : Type} : PyIter α → Option PyErr
  | .pystr s => some (PyErr.typeErrorNonStringIterable s)
  | .notIter => some PyErr.typeErrorNotIterable
  | .iter _ => none

/-- A `var_mappings` entry: in the source these are tuples of regex strings,
so the element type of the iterable is `String`. -/
abbrev Mapping := PyIter String

/-- The character `{`. -/
def lbrace : Char := Char.ofNat 123

/-- The character `}`. -/
def rbrace : Char := Char.ofNat 125

/-- Models CPython `str.format(*args)` restricted to the field forms the
route patterns use: automatic positional fields (an open brace directly
followed by a close brace) consume the next argument, raising `IndexError`
when the arguments are exhausted; doubled braces denote a literal brace;
every other use of a brace (named or indexed fields, a lone brace) is
collapsed into the `valueErrorBadFormatField` error.  Surplus arguments are
ignored, as in Python. -/
def pyFormatAux : List Char → List String → Except PyErr String
  | [], _ => Except.ok ""
  | [c], _ =>
    if c = lbrace ∨ c = rbrace then Except.error PyErr.valueErrorBadFormatField
    else Except.ok (String.mk [c])
  | c :: d :: cs, args =>
    if c = lbrace then
      if d = lbrace then (pyFormatAux cs args).map (fun t => String.mk [lbrace] ++ t)
      else if d = rbrace then
        match args with
        | [] => Except.error PyErr.indexErrorOutOfRange
        | a :: args2 => (pyFormatAux cs args2).map (fun t => a ++ t)
      else Except.error PyErr.valueErrorBadFormatField
    else if c = rbrace then
      if d = rbrace then (pyFormatAux cs args).map (fun t => String.mk [rbrace] ++ t)
      else Except.error PyErr.valueErrorBadFormatField
    else (pyFormatAux (d :: cs) args).map (fun t => String.mk [c] ++ t)

/-- `pattern.format(*pmap)`. -/
def pyFormat (pattern : String) (args : List String) : Except PyErr String :=
  pyFormatAux pattern.data args

/-- A Django `url(...)` object as built by the closure `add_url` inside
`Routes.add` (lines 167-173): the regex pattern string, the view function
(opaque, identified by a number), the kwargs dictionary passed along, and the
optional reverse-lookup name (`kwargs['django_url_name']` when present). -/
structure UrlEntry where
  pattern : String
  func : Nat
  kwargs : KwDict
  name : Option KwVal
deriving DecidableEq

/-- The registry state: the class-level `routes` list of url objects and the
class-level `tracked` set of unformatted route strings (the set is embedded
as a duplicate-free list; only membership and insertion are used). -/
structure RoutesState where
  routes : List UrlEntry
  tracked : List String
deriving DecidableEq

/-- The registry at module load: `routes = []`, `tracked = set()`. -/
def emptyRoutesState : RoutesState := { routes := [], tracked := [] }

/-- `Routes._check_if_format_exists(route)` (lines 219-228): raise
`ValueError` when the unformatted route is already tracked, otherwise add it
to the tracked set. -/
def check_if_format_exists (st : RoutesState) (route : String) :
    RoutesState × Option PyErr :=
  if route ∈ st.tracked then (st, some (PyErr.valueErrorDuplicate route))
  else ({ st with tracked := route :: st.tracked }, none)

/-- The closure `add_url(pattern, pmap, ending, opts)` inside `Routes.add`
(lines 167-173): format the pattern with the mapping, wrap it as
`'^{}{}'.format(formatted, '/$' if ending else '')` (the constant outer
template is embedded directly as concatenation), build the `url` object
(named iff `django_url_name` is a key of the kwargs), and append it to the
routes list.  A formatting exception propagates with the state unchanged. -/
def mkUrlEntry (func : Nat) (kw : KwDict) (f : String) (ending : Bool) : UrlEntry :=
  { pattern := "^" ++ f ++ (if ending then "/$" else ""), func := func,
    kwargs := kw, name := dictGet kw "django_url_name" }

/-- The body of `add_url` once `pattern.format(*pmap)` returned the string
`f`: see `add_url` below. -/
def add_url (st : RoutesState) (func : Nat) (kw : KwDict) (pattern : String)
    (pmap : List String) (ending : Bool) : RoutesState × Option PyErr :=
  match pyFormat pattern pmap with
  | Except.error e => (st, some e)
  | Except.ok f => ({ st with routes := st.routes ++ [mkUrlEntry func kw f ending] }, none)

/-- The `for mapr in var_mappings` loop of `Routes.add` (lines 176-178):
check each mapping with `check_if_list`, then append its url.  An exception
stops the loop, keeping the urls appended by the earlier iterations. -/
def addMappingsLoop (func : Nat) (add_ending : Bool) (kw : KwDict)
    (route : String) : RoutesState → List Mapping → RoutesState × Option PyErr
  | st, [] => (st, none)
  | st, m :: ms =>
    match check_if_list m with
    | some e => (st, some e)
    | none =>
      match add_url st func kw route (iterElems m) add_ending with
      | (st2, some e) => (st2, some e)
      | (st2, none) => addMappingsLoop func add_ending kw route st2 ms

/-- `Routes.add(route, func, var_mappings=None, add_ending=True, **kwargs)`
(lines 145-180): first `_check_if_format_exists(route)` (which inserts the
fresh route into the tracked set), then — Python truthiness of
`var_mappings`, so `None` and `[]` take the else branch — either loop over
the mappings or append the single url formatted with no arguments. -/
def Routes.add (st : RoutesState) (route : String) (func : Nat)
    (var_mappings : Option (List Mapping)) (add_ending : Bool) (kw : KwDict) :
    RoutesState × Option PyErr :=
  match check_if_format_exists st route with
  | (st1, some e) => (st1, some e)
  | (st1, none) =>
    match var_mappings with
    | some (m :: ms) => addMappingsLoop func add_ending kw route st1 (m :: ms)
    | _ => add_url st1 func kw route [] add_ending

/-- The `kwargs` value of a route-table dictionary: either an actual dict or
some non-dict value (which `add_list` rejects with `TypeError`). -/
inductive KwField where
  | dict (d : KwDict)
  | nondict
deriving DecidableEq

/-- A route-table dictionary as consumed by `add_list` / `add_view`:
`{"pattern": <pattern>, "map": [...], "kwargs": dict}` with `map` and
`kwargs` optional (`route.get("map", [])`, `'kwargs' in route`). -/
structure RouteDict where
  pattern : String
  map : Option (List Mapping)
  kwargs : Option KwField
deriving DecidableEq

/-- The `routes` argument of `add_list`, checked by `check_if_list`: a
string, a non-string iterable of route dictionaries, or a non-iterable. -/
abbrev RoutesArg := PyIter RouteDict

/-- The per-route kwargs merge of `add_list` (lines 203-208):
`route_kwargs = kwargs.copy()`, then `TypeError` when the route's `kwargs`
value is not a dict, otherwise assign every entry of it into the copy. -/
def mergeKw (kw : KwDict) : Option KwField → Except PyErr KwDict
  | none => Except.ok kw
  | some KwField.nondict => Except.error PyErr.typeErrorKwargsNotDict
  | some (KwField.dict d) => Except.ok (mergeList kw d)

/-- The pattern handed to `add` by `add_list` (line 209):
`route["pattern"] if prefix is None else '{}/{}'.format(prefix, route["pattern"])`. -/
def patternWithPfx (pfx : Option String) (pat : String) : String :=
  match pfx with
  | none => pat
  | some p => p ++ "/" ++ pat

/-- Python call binding for `self.add(route, func, var_mappings=vm, **kw)`:
a kwargs key equal to the name of an already-bound parameter — including
`self`, bound as the method receiver — raises `TypeError` (got multiple
values); a key `add_ending` binds that parameter (truthiness applied where
the source tests it) and is removed from the kwargs that reach `add`'s own
`**kwargs`; `add_ending` defaults to `True`. -/
def callAddKw (st : RoutesState) (route : String) (func : Nat)
    (vm : Option (List Mapping)) (kw : KwDict) : RoutesState × Option PyErr :=
  if dictHas kw "self" then (st, some (PyErr.typeErrorMultipleValues "self"))
  else if dictHas kw "route" then (st, some (PyErr.typeErrorMultipleValues "route"))
  else if dictHas kw "func" then (st, some (PyErr.typeErrorMultipleValues "func"))
  else if dictHas kw "var_mappings" then
    (st, some (PyErr.typeErrorMultipleValues "var_mappings"))
  else
    let ae : Bool :=
      match dictGet kw "add_ending" with
      | some v => v.truthy
      | none => true
    Routes.add st route func vm ae (dictRemove kw "add_ending")

/-- The `for route in routes` loop of `add_list` (lines 202-210): merge the
kwargs, then `self.add(<prefixed pattern>, func, var_mappings=route.get("map", []), **route_kwargs)`.
An exception stops the loop, keeping the registrations of the earlier
iterations. -/
def addListLoop (func : Nat) (pfx : Option String) (kw : KwDict) :
    RoutesState → List RouteDict → RoutesState × Option PyErr
  | st, [] => (st, none)
  | st, rd :: rds =>
    match mergeKw kw rd.kwargs with
    | Except.error e => (st, some e)
    | Except.ok merged =>
      match callAddKw st (patternWithPfx pfx rd.pattern) func
          (some (rd.map.getD [])) merged with
      | (st2, some e) => (st2, some e)
      | (st2, none) => addListLoop func pfx kw st2 rds

/-- `Routes.add_list(routes, func, prefix=None, **kwargs)` (lines 182-210):
`check_if_list(routes)`, then register each route dictionary. -/
def Routes.add_list (st : RoutesState) (routesArg : RoutesArg) (func : Nat)
    (pfx : Option String) (kw : KwDict) : RoutesState × Option PyErr :=
  match check_if_list routesArg with
  | some e => (st, some e)
  | none => addListLoop func pfx kw st (iterElems routesArg)

/-- A class-based view as seen by `add_view`: its `__name__`, its optional
`routes` attribute (any Python value, checked by `add_list`), its optional
`prefix` attribute (modelled in the field `pfx`), its optional `add_ending`
attribute, and the handler produced by `view.as_view()` (opaque). -/
structure ViewClass where
  name : String
  routesAttr : Option RoutesArg
  pfx : Option String
  addEndingAttr : Option Bool
  func : Nat
deriving DecidableEq

/-- Lines 264-265 of `add_view`: `if hasattr(view, 'add_ending') and
'add_ending' not in kwargs: kwargs['add_ending'] = view.add_ending`. -/
def viewKw (v : ViewClass) (kw : KwDict) : KwDict :=
  match v.addEndingAttr with
  | some b => if dictHas kw "add_ending" then kw else dictSet kw "add_ending" (KwVal.b b)
  | none => kw

/-- `Routes.add_view(view, **kwargs)` (lines 230-267): `AttributeError` when
the view has no `routes` attribute; otherwise take the view's optional
`prefix` and `add_ending` attributes and call
`self.add_list(view.routes, view.as_view(), prefix=prefix, **kwargs)` (whose
call binding rejects kwargs keys that collide with bound parameters). -/
def Routes.add_view (st : RoutesState) (v : ViewClass) (kw : KwDict) :
    RoutesState × Option PyErr :=
  match v.routesAttr with
  | none => (st, some (PyErr.attributeErrorNoRoutes v.name))
  | some ra =>
    let kw2 := viewKw v kw
    if dictHas kw2 "routes" then (st, some (PyErr.typeErrorMultipleValues "routes"))
    else if dictHas kw2 "func" then (st, some (PyErr.typeErrorMultipleValues "func"))
    else if dictHas kw2 "prefix" then (st, some (PyErr.typeErrorMultipleValues "prefix"))
    else Routes.add_list st ra v.func v.pfx kw2

/-- `Routes.acceptable_routes` (line 43). -/
def Routes.acceptable_routes : List String := ["app_module_view", "module_view"]

/-- The Django settings object.  Django's `Settings` copies only the
upper-case names of the settings module onto itself, so the only attribute
the routes module can find on it is `ROUTE_AUTO_CREATE` (absent ↦ `none`). -/
structure DjangoSettings where
  ROUTE_AUTO_CREATE : Option String
deriving DecidableEq

/-- Python `getattr(settings, a)`: case-sensitive; a lower-case name such as
`route_auto_create` is never defined on the settings object. -/
def settingsAttr (s : DjangoSettings) (a : String) : Option String :=
  if a = "ROUTE_AUTO_CREATE" then s.ROUTE_AUTO_CREATE else none

/-- What `Routes.__init__` decides to do when it returns normally. -/
inductive InitAction where
  | noAutoCreate
  | registerAppModuleView
  | registerModuleView
deriving DecidableEq

/-- The settings-dispatch part of `Routes.__init__` (lines 54-60), after the
urls-module import side effect (not modelled): no `ROUTE_AUTO_CREATE` setting
means no auto-create; the two acceptable values select a registration mode;
any other value reaches `raise ValueError(... .format(settings.route_auto_create, ...))`,
whose argument evaluation looks up the lower-case attribute
`route_auto_create` on the settings object — an attribute Django never
defines — so the attribute lookup raises `AttributeError` before the
`ValueError` can be constructed. -/
def Routes.init (s : DjangoSettings) : Except PyErr InitAction :=
  match s.ROUTE_AUTO_CREATE with
  | none => Except.ok InitAction.noAutoCreate
  | some v =>
    if v = "app_module_view" then Except.ok InitAction.registerAppModuleView
    else if v = "module_view" then Except.ok InitAction.registerModuleView
    else
      match settingsAttr s "route_auto_create" with
      | some w => Except.error (PyErr.valueErrorBadAutoCreate w)
      | none => Except.error (PyErr.attributeError "route_auto_create")

/-- The two classes of the module. -/
inductive RClass where
  | routesC
  | lazyRoutesC
deriving DecidableEq

/-- References to the two mutable class-level registry objects created once
at class-body execution (line 42 `routes = []`, line 44 `tracked = set()`). -/
inductive PyRef where
  | routesListRef
  | trackedSetRef
deriving DecidableEq

/-- The class `__dict__` of each class as written in the source: `Routes`
binds `routes` and `tracked` to the two registry objects; the body of
`LazyRoutes` defines neither (it only overrides `__init__`). -/
def classDict : RClass → List (String × PyRef)
  | RClass.routesC => [("routes", PyRef.routesListRef), ("tracked", PyRef.trackedSetRef)]
  | RClass.lazyRoutesC => []

/-- Method-resolution order: `LazyRoutes` inherits from `Routes`. -/
def mro : RClass → List RClass
  | RClass.routesC => [RClass.routesC]
  | RClass.lazyRoutesC => [RClass.lazyRoutesC, RClass.routesC]

/-- A Python instance: its class and its instance `__dict__` (restricted to
the registry-valued attributes; no code in the module ever assigns a
`routes` or `tracked` attribute on an instance, so the instances the module
creates all have an empty instance dict here). -/
structure RInstance where
  cls : RClass
  instAttrs : List (String × PyRef)
deriving DecidableEq

/-- Python attribute lookup `getattr(inst, a)` for the registry attributes:
the instance `__dict__` first, then the classes of the MRO in order. -/
def lookupAttr (i : RInstance) (a : String) : Option PyRef :=
  match i.instAttrs.lookup a with
  | some r => some r
  | none => (mro i.cls).findSome? (fun c => (classDict c).lookup a)

/-- The heap holding the two registry objects that the references denote. -/
structure Heap where
  routesObj : List UrlEntry
  trackedObj : List String
deriving DecidableEq

/-- `inst.add(route, func, var_mappings, add_ending, **kw)` against the heap:
resolve `self.tracked` and `self.routes` through attribute lookup, and run
`Routes.add` on the objects those references denote — mutating them in place,
so every instance whose lookup resolves to the same references observes the
change. -/
def Heap.addVia (h : Heap) (i : RInstance) (route : String) (func : Nat)
    (vm : Option (List Mapping)) (ae : Bool) (kw : KwDict) :
    Heap × Option PyErr :=
  match lookupAttr i "tracked", lookupAttr i "routes" with
  | some PyRef.trackedSetRef, some PyRef.routesListRef =>
    let r := Routes.add { routes := h.routesObj, tracked := h.trackedObj }
      route func vm ae kw
    ({ routesObj := r.1.routes, trackedObj := r.1.tracked }, r.2)
  | _, _ => (h, some (PyErr.attributeError "tracked"))

/-- The module-level `lazy_routes = LazyRoutes()` (line 282): `LazyRoutes.__init__`
does nothing, so the instance dict is empty. -/
def lazy_routes : RInstance := { cls := RClass.lazyRoutesC, instAttrs := [] }

/-- The module-level `routes = Routes()` (line 283): `Routes.__init__` never
assigns instance attributes, so the instance dict is empty. -/
def routesInstance : RInstance := { cls := RClass.routesC, instAttrs := [] }

/-- The arguments of one `Routes.add` call, for reasoning about sequences of
calls. -/
structure AddCall where
  route : String
  func : Nat
  var_mappings : Option (List Mapping)
  add_ending : Bool
  kw : KwDict
deriving DecidableEq

/-- Run a sequence of `Routes.add` calls, keeping the state each call leaves
behind (also when it raises, as the Python registry would). -/
def runAdds (st : RoutesState) (cs : List AddCall) : RoutesState :=
  cs.foldl (fun s c => (Routes.add s c.route c.func c.var_mappings c.add_ending c.kw).1) st

/-- The list of argument tuples `pattern.format` is applied to by a call of
`Routes.add` with the given `var_mappings`: one per mapping when the
truthiness test takes the loop, the single empty tuple otherwise. -/
def vmArgsList : Option (List Mapping) → List (List String)
  | some (m :: ms) => (m :: ms).map iterElems
  | _ => [[]]

theorem exceptMapError {α β γ : Type} (f : α → β) (x : Except γ α) (e : γ)
    (h : x.map f = Except.error e) : x = Except.error e := by
  cases x with
  | error a => simpa [Except.map] using h
  | ok a => exact Except.noConfusion h

theorem pyFormatAux_error_cases (cs : List Char) (args : List String) (e : PyErr) :
    pyFormatAux cs args = Except.error e →
    e = PyErr.indexErrorOutOfRange ∨ e = PyErr.valueErrorBadFormatField := by
  induction cs, args using pyFormatAux.induct with
  | case1 args => intro h; simp [pyFormatAux] at h
  | case2 c args hc =>
    intro h
    simp only [pyFormatAux, if_pos hc] at h
    injection h with h2
    exact Or.inr h2.symm
  | case3 c args hc =>
    intro h
    simp only [pyFormatAux, if_neg hc] at h
    exact Except.noConfusion h
  | case4 cs args ih =>
    intro h
    simp only [pyFormatAux, if_pos rfl] at h
    exact ih (exceptMapError _ _ _ h)
  | case5 cs hne =>
    intro h
    simp only [pyFormatAux, if_neg hne, if_pos rfl] at h
    injection h with h2
    exact Or.inl h2.symm
  | case6 cs a args2 hne ih =>
    intro h
    simp only [pyFormatAux, if_neg hne, if_pos rfl] at h
    exact ih (exceptMapError _ _ _ h)
  | case7 d cs args hd1 hd2 =>
    intro h
    simp only [pyFormatAux, if_pos rfl, if_neg hd1, if_neg hd2] at h
    injection h with h2
    exact Or.inr h2.symm
  | case8 cs args hne ih =>
    intro h
    simp only [pyFormatAux, if_neg hne, if_pos rfl] at h
    exact ih (exceptMapError _ _ _ h)
  | case9 d cs args hd hne =>
    intro h
    simp only [pyFormatAux, if_neg hne, if_pos rfl, if_neg hd] at h
    injection h with h2
    exact Or.inr h2.symm
  | case10 c d cs args hc1 hc2 ih =>
    intro h
    simp only [pyFormatAux, if_neg hc1, if_neg hc2] at h
    exact ih (exceptMapError _ _ _ h)

theorem add_url_tracked (st : RoutesState) (func : Nat) (kw : KwDict)
    (pattern : String) (pmap : List String) (ending : Bool) :
    (add_url st func kw pattern pmap ending).1.tracked = st.tracked := by
  cases hf : pyFormat pattern pmap <;> simp [add_url, hf]

theorem add_url_routes_grow (st : RoutesState) (func : Nat) (kw : KwDict)
    (pattern : String) (pmap : List String) (ending : Bool) :
    ∃ t, (add_url st func kw pattern pmap ending).1.routes = st.routes ++ t := by
  cases hf : pyFormat pattern pmap with
  | error e => exact ⟨[], by simp [add_url, hf]⟩
  | ok f =>
    refine ⟨[mkUrlEntry func kw f ending], ?_⟩
    simp [add_url, hf]

theorem add_url_err (st : RoutesState) (func : Nat) (kw : KwDict)
    (pattern : String) (pmap : List String) (ending : Bool) (e : PyErr)
    (h : (add_url st func kw pattern pmap ending).2 = some e) :
    pyFormat pattern pmap = Except.error e ∧
      (add_url st func kw pattern pmap ending).1 = st := by
  cases hf : pyFormat pattern pmap with
  | error e2 =>
    simp [add_url, hf] at h
    subst h
    exact ⟨rfl, by simp [add_url, hf]⟩
  | ok f => simp [add_url, hf] at h

theorem add_url_ok (st : RoutesState) (func : Nat) (kw : KwDict)
    (pattern : String) (pmap : List String) (ending : Bool)
    (h : (add_url st func kw pattern pmap ending).2 = none) :
    ∃ f, pyFormat pattern pmap = Except.ok f ∧
      (add_url st func kw pattern pmap ending).1 =
        { st with routes := st.routes ++ [mkUrlEntry func kw f ending] } := by
  cases hf : pyFormat pattern pmap with
  | error e => simp [add_url, hf] at h
  | ok f => exact ⟨f, rfl, by simp [add_url, hf]⟩

theorem addMappingsLoop_tracked (func : Nat) (ae : Bool) (kw : KwDict)
    (route : String) (ms : List Mapping) : ∀ st : RoutesState,
    (addMappingsLoop func ae kw route st ms).1.tracked = st.tracked := by
  induction ms with
  | nil => intro st; rfl
  | cons m ms ih =>
    intro st
    cases hc : check_if_list m with
    | some e => simp [addMappingsLoop, hc]
    | none =>
      have ht := add_url_tracked st func kw route (iterElems m) ae
      cases ha : add_url st func kw route (iterElems m) ae with
      | mk st2 o =>
        rw [ha] at ht
        cases o with
        | some e => simpa [addMappingsLoop, hc, ha] using ht
        | none =>
          simp only [addMappingsLoop, hc, ha]
          rw [ih st2]
          exact ht

theorem addMappingsLoop_routes_grow (func : Nat) (ae : Bool) (kw : KwDict)
    (route : String) (ms : List Mapping) : ∀ st : RoutesState,
    ∃ t, (addMappingsLoop func ae kw route st ms).1.routes = st.routes ++ t := by
  induction ms with
  | nil => intro st; exact ⟨[], by simp [addMappingsLoop]⟩
  | cons m ms ih =>
    intro st
    cases hc : check_if_list m with
    | some e => exact ⟨[], by simp [addMappingsLoop, hc]⟩
    | none =>
      obtain ⟨t1, ht1⟩ := add_url_routes_grow st func kw route (iterElems m) ae
      cases ha : add_url st func kw route (iterElems m) ae with
      | mk st2 o =>
        rw [ha] at ht1
        cases o with
        | some e => exact ⟨t1, by simpa [addMappingsLoop, hc, ha] using ht1⟩
        | none =>
          obtain ⟨t2, ht2⟩ := ih st2
          refine ⟨t1 ++ t2, ?_⟩
          simp only [addMappingsLoop, hc, ha]
          rw [ht2, ht1, List.append_assoc]

theorem addMappingsLoop_err (func : Nat) (ae : Bool) (kw : KwDict)
    (route : String) (ms : List Mapping) : ∀ (st : RoutesState) (e : PyErr),
    (addMappingsLoop func ae kw route st ms).2 = some e →
    e.isTypeError = true ∨ e = PyErr.indexErrorOutOfRange ∨
      e = PyErr.valueErrorBadFormatField := by
  induction ms with
  | nil => intro st e h; simp [addMappingsLoop] at h
  | cons m ms ih =>
    intro st e h
    cases hc : check_if_list m with
    | some e2 =>
      simp [addMappingsLoop, hc] at h
      subst h
      cases m <;> simp [check_if_list] at hc <;> simp [← hc, PyErr.isTypeError]
    | none =>
      cases ha : add_url st func kw route (iterElems m) ae with
      | mk st2 o =>
        cases o with
        | some e2 =>
          simp [addMappingsLoop, hc, ha] at h
          subst h
          obtain ⟨hf, _⟩ := add_url_err st func kw route (iterElems m) ae e2 (by rw [ha])
          exact Or.inr (pyFormatAux_error_cases _ _ _ hf)
        | none =>
          simp only [addMappingsLoop, hc, ha] at h
          exact ih st2 e h

theorem addMappingsLoop_ok (func : Nat) (ae : Bool) (kw : KwDict)
    (route : String) (ms : List Mapping) : ∀ st : RoutesState,
    (addMappingsLoop func ae kw route st ms).2 = none →
    ∃ t, (addMappingsLoop func ae kw route st ms).1.routes = st.routes ++ t ∧
      t.length = ms.length := by
  induction ms with
  | nil => intro st _; exact ⟨[], by simp [addMappingsLoop]⟩
  | cons m ms ih =>
    intro st h
    cases hc : check_if_list m with
    | some e => simp [addMappingsLoop, hc] at h
    | none =>
      cases ha : add_url st func kw route (iterElems m) ae with
      | mk st2 o =>
        cases o with
        | some e => simp [addMappingsLoop, hc, ha] at h
        | none =>
          simp only [addMappingsLoop, hc, ha] at h ⊢
          obtain ⟨f, hf, hst⟩ := add_url_ok st func kw route (iterElems m) ae (by rw [ha])
          rw [ha] at hst
          obtain ⟨t2, ht2, hlen⟩ := ih st2 h
          have hr : st2.routes = st.routes ++ [mkUrlEntry func kw f ae] :=
            congrArg RoutesState.routes hst
          refine ⟨mkUrlEntry func kw f ae :: t2, ?_, ?_⟩
          · rw [ht2, hr]
            simp
          · simp [hlen]

theorem addMappingsLoop_mem (func : Nat) (ae : Bool) (kw : KwDict)
    (route : String) (ms : List Mapping) : ∀ (st : RoutesState) (u : UrlEntry),
    u ∈ (addMappingsLoop func ae kw route st ms).1.routes →
    u ∈ st.routes ∨ ∃ pm ∈ ms.map iterElems, ∃ f,
      pyFormat route pm = Except.ok f ∧
      u.pattern = "^" ++ f ++ (if ae then "/$" else "") := by
  induction ms with
  | nil => intro st u h; exact Or.inl h
  | cons m ms ih =>
    intro st u h
    cases hc : check_if_list m with
    | some e => simp [addMappingsLoop, hc] at h; exact Or.inl h
    | none =>
      cases ha : add_url st func kw route (iterElems m) ae with
      | mk st2 o =>
        cases o with
        | some e =>
          simp only [addMappingsLoop, hc, ha] at h
          cases hf : pyFormat route (iterElems m) with
          | error e2 =>
            have : st2 = st := by
              have := congrArg Prod.fst ha
              simpa [add_url, hf] using this.symm
            subst this
            exact Or.inl h
          | ok f => simp [add_url, hf] at ha
        | none =>
          simp only [addMappingsLoop, hc, ha] at h
          obtain ⟨f, hf, hst⟩ := add_url_ok st func kw route (iterElems m) ae (by rw [ha])
          rw [ha] at hst
          have hr : st2.routes = st.routes ++ [mkUrlEntry func kw f ae] :=
            congrArg RoutesState.routes hst
          rcases ih st2 u h with hin | ⟨pm, hpm, f2, hf2, hp⟩
          · rw [hr] at hin
            rcases List.mem_append.mp hin with hin2 | hin2
            · exact Or.inl hin2
            · refine Or.inr ⟨iterElems m, by simp, f, hf, ?_⟩
              simp at hin2
              rw [hin2]
              rfl
          · exact Or.inr ⟨pm, by simp at hpm ⊢; exact Or.inr hpm, f2, hf2, hp⟩

theorem addMappingsLoop_progress (func : Nat) (ae : Bool) (kw : KwDict)
    (route : String) (bad : Mapping) (rest : List Mapping) (err : PyErr)
    (hbad : check_if_list bad = some err) : ∀ (good : List Mapping) (st : RoutesState),
    (∀ m ∈ good, (∃ xs, m = PyIter.iter xs) ∧
      ∃ f, pyFormat route (iterElems m) = Except.ok f) →
    (addMappingsLoop func ae kw route st (good ++ bad :: rest)).2 = some err ∧
    (addMappingsLoop func ae kw route st (good ++ bad :: rest)).1.routes.length =
      st.routes.length + good.length := by
  intro good
  induction good with
  | nil =>
    intro st _
    simp [addMappingsLoop, hbad]
  | cons m good ih =>
    intro st hgood
    obtain ⟨⟨xs, hxs⟩, f, hf⟩ := hgood m (by simp)
    have hc : check_if_list m = none := by rw [hxs]; rfl
    cases ha : add_url st func kw route (iterElems m) ae with
    | mk st2 o =>
      cases o with
      | some e => rw [add_url, hf] at ha; cases ha
      | none =>
        obtain ⟨f2, hf2, hst⟩ := add_url_ok st func kw route (iterElems m) ae (by rw [ha])
        rw [ha] at hst
        have hr : st2.routes = st.routes ++ [mkUrlEntry func kw f2 ae] :=
          congrArg RoutesState.routes hst
        have hih := ih st2 (fun m2 hm2 => hgood m2 (by simp [hm2]))
        constructor
        · simpa only [List.cons_append, addMappingsLoop, hc, ha] using hih.1
        · have : (addMappingsLoop func ae kw route st ((m :: good) ++ bad :: rest)) =
            addMappingsLoop func ae kw route st2 (good ++ bad :: rest) := by
            simp only [List.cons_append, addMappingsLoop, hc, ha]
            rfl
          rw [this, hih.2, hr]
          simp [Nat.add_assoc, Nat.add_comm 1 good.length]

theorem add_dup (st : RoutesState) (route : String) (func : Nat)
    (vm : Option (List Mapping)) (ae : Bool) (kw : KwDict)
    (h : route ∈ st.tracked) :
    Routes.add st route func vm ae kw = (st, some (PyErr.valueErrorDuplicate route)) := by
  simp [Routes.add, check_if_format_exists, h]

theorem add_fresh_loop (st : RoutesState) (route : String) (func : Nat)
    (m : Mapping) (ms : List Mapping) (ae : Bool) (kw : KwDict)
    (h : route ∉ st.tracked) :
    Routes.add st route func (some (m :: ms)) ae kw =
      addMappingsLoop func ae kw route { st with tracked := route :: st.tracked } (m :: ms) := by
  simp [Routes.add, check_if_format_exists, h]

theorem add_fresh_empty (st : RoutesState) (route : String) (func : Nat)
    (vm : Option (List Mapping)) (ae : Bool) (kw : KwDict)
    (h : route ∉ st.tracked) (hvm : vm = none ∨ vm = some []) :
    Routes.add st route func vm ae kw =
      add_url { st with tracked := route :: st.tracked } func kw route [] ae := by
  rcases hvm with rfl | rfl <;> simp [Routes.add, check_if_format_exists, h]

theorem add_tracked_eq (st : RoutesState) (route : String) (func : Nat)
    (vm : Option (List Mapping)) (ae : Bool) (kw : KwDict) :
    (Routes.add st route func vm ae kw).1.tracked =
      if route ∈ st.tracked then st.tracked else route :: st.tracked := by
  by_cases h : route ∈ st.tracked
  · rw [add_dup st route func vm ae kw h, if_pos h]
  · rw [if_neg h]
    match vm with
    | some (m :: ms) =>
      rw [add_fresh_loop st route func m ms ae kw h,
        addMappingsLoop_tracked func ae kw route (m :: ms)]
    | none =>
      rw [add_fresh_empty st route func none ae kw h (Or.inl rfl),
        add_url_tracked]
    | some [] =>
      rw [add_fresh_empty st route func (some []) ae kw h (Or.inr rfl),
        add_url_tracked]

theorem add_routes_grow (st : RoutesState) (route : String) (func : Nat)
    (vm : Option (List Mapping)) (ae : Bool) (kw : KwDict) :
    ∃ t, (Routes.add st route func vm ae kw).1.routes = st.routes ++ t := by
  by_cases h : route ∈ st.tracked
  · exact ⟨[], by rw [add_dup st route func vm ae kw h]; simp⟩
  · match vm with
    | some (m :: ms) =>
      rw [add_fresh_loop st route func m ms ae kw h]
      exact addMappingsLoop_routes_grow func ae kw route (m :: ms) _
    | none =>
      rw [add_fresh_empty st route func none ae kw h (Or.inl rfl)]
      exact add_url_routes_grow _ func kw route [] ae
    | some [] =>
      rw [add_fresh_empty st route func (some []) ae kw h (Or.inr rfl)]
      exact add_url_routes_grow _ func kw route [] ae

theorem add_fresh_not_dup (st : RoutesState) (route : String) (func : Nat)
    (vm : Option (List Mapping)) (ae : Bool) (kw : KwDict)
    (h : route ∉ st.tracked) (r2 : String) :
    (Routes.add st route func vm ae kw).2 ≠ some (PyErr.valueErrorDuplicate r2) := by
  intro hcon
  match vm with
  | some (m :: ms) =>
    rw [add_fresh_loop st route func m ms ae kw h] at hcon
    rcases addMappingsLoop_err func ae kw route (m :: ms) _ _ hcon with h2 | h2 | h2
    · simp [PyErr.isTypeError] at h2
    · cases h2
    · cases h2
  | none =>
    rw [add_fresh_empty st route func none ae kw h (Or.inl rfl)] at hcon
    obtain ⟨hf, -⟩ := add_url_err _ func kw route [] ae _ hcon
    rcases pyFormatAux_error_cases _ _ _ hf with h2 | h2 <;> cases h2
  | some [] =>
    rw [add_fresh_empty st route func (some []) ae kw h (Or.inr rfl)] at hcon
    obtain ⟨hf, -⟩ := add_url_err _ func kw route [] ae _ hcon
    rcases pyFormatAux_error_cases _ _ _ hf with h2 | h2 <;> cases h2

theorem add_fresh_loopNE (st : RoutesState) (route : String) (func : Nat)
    (ms : List Mapping) (ae : Bool) (kw : KwDict)
    (h : route ∉ st.tracked) (hne : ms ≠ []) :
    Routes.add st route func (some ms) ae kw =
      addMappingsLoop func ae kw route
        { st with tracked := route :: st.tracked } ms := by
  match ms with
  | [] => exact absurd rfl hne
  | m :: ms2 => exact add_fresh_loop st route func m ms2 ae kw h

theorem add_tracked_mem (st : RoutesState) (route : String) (func : Nat)
    (vm : Option (List Mapping)) (ae : Bool) (kw : KwDict) (x : String) :
    x ∈ (Routes.add st route func vm ae kw).1.tracked ↔
      x = route ∨ x ∈ st.tracked := by
  rw [add_tracked_eq]
  by_cases h : route ∈ st.tracked
  · rw [if_pos h]
    constructor
    · exact Or.inr
    · rintro (rfl | hx)
      · exact h
      · exact hx
  · rw [if_neg h]
    exact List.mem_cons

/-- C1: a call `Routes.add(route, func, ...)` raises the duplicate-route
`ValueError` if and only if the unformatted route string was already in the
tracked set, and a fresh route string becomes tracked by the call. -/
theorem claim_C1 (st : RoutesState) (route : String) (func : Nat)
    (vm : Option (List Mapping)) (ae : Bool) (kw : KwDict) :
    ((Routes.add st route func vm ae kw).2 =
        some (PyErr.valueErrorDuplicate route) ↔ route ∈ st.tracked) ∧
    (route ∉ st.tracked → route ∈ (Routes.add st route func vm ae kw).1.tracked) := by
  constructor
  · constructor
    · intro h
      by_contra hn
      exact add_fresh_not_dup st route func vm ae kw hn route h
    · intro h
      rw [add_dup st route func vm ae kw h]
  · intro h
    rw [add_tracked_eq, if_neg h]
    exact List.mem_cons_self _ _

/-- Witness for C1 at concrete inputs: adding `"a"` when `"a"` is tracked
raises the duplicate error; adding `"b"` to the empty registry tracks it. -/
theorem claim_C1_witness :
    (Routes.add { routes := [], tracked := ["a"] } "a" 0 none true []).2 =
      some (PyErr.valueErrorDuplicate "a") ∧
    "b" ∈ (Routes.add emptyRoutesState "b" 0 none true []).1.tracked :=
  ⟨(claim_C1 { routes := [], tracked := ["a"] } "a" 0 none true []).1.mpr (by decide),
   (claim_C1 emptyRoutesState "b" 0 none true []).2 (by decide)⟩

/-- C2: a successful `Routes.add` on a fresh route appends exactly one url
entry per mapping when `var_mappings` is a non-empty list, and exactly one
url entry — the route formatted with the empty argument tuple — when
`var_mappings` is `None` or the empty list. -/
theorem claim_C2 (st : RoutesState) (route : String) (func : Nat) (ae : Bool)
    (kw : KwDict) :
    (∀ ms : List Mapping, ms ≠ [] →
      (Routes.add st route func (some ms) ae kw).2 = none →
      ∃ t, (Routes.add st route func (some ms) ae kw).1.routes = st.routes ++ t ∧
        t.length = ms.length) ∧
    (∀ vm : Option (List Mapping), vm = none ∨ vm = some [] →
      (Routes.add st route func vm ae kw).2 = none →
      ∃ f, pyFormat route [] = Except.ok f ∧
        (Routes.add st route func vm ae kw).1.routes =
          st.routes ++ [mkUrlEntry func kw f ae]) := by
  constructor
  · intro ms hne hok
    by_cases h : route ∈ st.tracked
    · rw [add_dup st route func (some ms) ae kw h] at hok
      cases hok
    · rw [add_fresh_loopNE st route func ms ae kw h hne] at hok ⊢
      exact addMappingsLoop_ok func ae kw route ms _ hok
  · intro vm hvm hok
    by_cases h : route ∈ st.tracked
    · rw [add_dup st route func vm ae kw h] at hok
      cases hok
    · rw [add_fresh_empty st route func vm ae kw h hvm] at hok ⊢
      obtain ⟨f, hf, hst⟩ := add_url_ok _ func kw route [] ae hok
      exact ⟨f, hf, congrArg RoutesState.routes hst⟩

/-- Witness for C2: two mappings append two entries; `var_mappings=None`
appends the single unformatted entry. -/
theorem claim_C2_witness :
    (∃ t, (Routes.add emptyRoutesState "r" 0
        (some [PyIter.iter ["a"], PyIter.iter ["b"]]) true []).1.routes =
        [] ++ t ∧ t.length = 2) ∧
    (∃ f, pyFormat "r" [] = Except.ok f ∧
      (Routes.add emptyRoutesState "r" 0 none true []).1.routes =
        [] ++ [mkUrlEntry 0 [] f true]) :=
  ⟨(claim_C2 emptyRoutesState "r" 0 true []).1
      [PyIter.iter ["a"], PyIter.iter ["b"]] (by decide) (by decide),
   (claim_C2 emptyRoutesState "r" 0 true []).2 none (Or.inl rfl) (by decide)⟩

/-- C3: every url entry that a `Routes.add` call appends has pattern
`'^' + route.format(*mapping) + '/$'` when `add_ending` is true and
`'^' + route.format(*mapping)` when it is false, where the mapping is one of
the call's var-mappings (the empty tuple when `var_mappings` is absent). -/
theorem claim_C3 (st : RoutesState) (route : String) (func : Nat)
    (vm : Option (List Mapping)) (ae : Bool) (kw : KwDict) (u : UrlEntry)
    (hu : u ∈ (Routes.add st route func vm ae kw).1.routes) :
    u ∈ st.routes ∨ ∃ pm ∈ vmArgsList vm, ∃ f,
      pyFormat route pm = Except.ok f ∧
      u.pattern = "^" ++ f ++ (if ae then "/$" else "") := by
  by_cases h : route ∈ st.tracked
  · rw [add_dup st route func vm ae kw h] at hu
    exact Or.inl hu
  · match vm with
    | some (m :: ms) =>
      rw [add_fresh_loop st route func m ms ae kw h] at hu
      rcases addMappingsLoop_mem func ae kw route (m :: ms) _ u hu with hin | hrest
      · exact Or.inl hin
      · exact Or.inr hrest
    | none =>
      rw [add_fresh_empty st route func none ae kw h (Or.inl rfl)] at hu
      cases hf : pyFormat route [] with
      | error e => simpa [add_url, hf] using Or.inl hu
      | ok f =>
        simp only [add_url, hf] at hu
        rcases List.mem_append.mp hu with hin | hin
        · exact Or.inl hin
        · simp at hin
          exact Or.inr ⟨[], by simp [vmArgsList], f, hf, by rw [hin]; rfl⟩
    | some [] =>
      rw [add_fresh_empty st route func (some []) ae kw h (Or.inr rfl)] at hu
      cases hf : pyFormat route [] with
      | error e => simpa [add_url, hf] using Or.inl hu
      | ok f =>
        simp only [add_url, hf] at hu
        rcases List.mem_append.mp hu with hin | hin
        · exact Or.inl hin
        · simp at hin
          exact Or.inr ⟨[], by simp [vmArgsList], f, hf, by rw [hin]; rfl⟩

/-- Witness for C3: the entry appended for route `"r"` with one mapping has
pattern `^r/$`. -/
theorem claim_C3_witness :
    mkUrlEntry 0 [] "r" true ∈
      (Routes.add emptyRoutesState "r" 0 (some [PyIter.iter []]) true []).1.routes ∧
    (mkUrlEntry 0 [] "r" true ∈ (emptyRoutesState).routes ∨
      ∃ pm ∈ vmArgsList (some [PyIter.iter []]), ∃ f,
        pyFormat "r" pm = Except.ok f ∧
        (mkUrlEntry 0 [] "r" true).pattern = "^" ++ f ++ (if true then "/$" else "")) :=
  ⟨by decide,
   claim_C3 emptyRoutesState "r" 0 (some [PyIter.iter []]) true []
     (mkUrlEntry 0 [] "r" true) (by decide)⟩

theorem check_if_list_isTypeError {α : Type} (m : PyIter α) (e : PyErr)
    (h : check_if_list m = some e) : e.isTypeError = true := by
  cases m with
  | pystr s =>
    simp [check_if_list] at h
    simp [← h, PyErr.isTypeError]
  | iter xs => simp [check_if_list] at h
  | notIter =>
    simp [check_if_list] at h
    simp [← h, PyErr.isTypeError]

/-- C4: with a non-empty `var_mappings`, a mapping entry that is a string or
has neither `__getitem__` nor `__iter__` makes `Routes.add` raise the
`TypeError` of `check_if_list` (the valid entries before it being formatted
without error); and `Routes.add_list` raises `TypeError` when its `routes`
argument is a string or is not iterable. -/
theorem claim_C4 :
    (∀ (st : RoutesState) (route : String) (func : Nat) (ae : Bool)
        (kw : KwDict) (good rest : List Mapping) (bad : Mapping) (err : PyErr),
      route ∉ st.tracked →
      (∀ m ∈ good, (∃ xs, m = PyIter.iter xs) ∧
        ∃ f, pyFormat route (iterElems m) = Except.ok f) →
      check_if_list bad = some err →
      (Routes.add st route func (some (good ++ bad :: rest)) ae kw).2 = some err ∧
        err.isTypeError = true) ∧
    (∀ (st : RoutesState) (func : Nat) (pfx : Option String) (kw : KwDict)
        (s : String),
      (Routes.add_list st (PyIter.pystr s) func pfx kw).2 =
        some (PyErr.typeErrorNonStringIterable s)) ∧
    (∀ (st : RoutesState) (func : Nat) (pfx : Option String) (kw : KwDict),
      (Routes.add_list st PyIter.notIter func pfx kw).2 =
        some PyErr.typeErrorNotIterable) := by
  refine ⟨?_, ?_, ?_⟩
  · intro st route func ae kw good rest bad err hfresh hgood hbad
    rw [add_fresh_loopNE st route func (good ++ bad :: rest) ae kw hfresh (by simp)]
    exact ⟨(addMappingsLoop_progress func ae kw route bad rest err hbad good _ hgood).1,
      check_if_list_isTypeError bad err hbad⟩
  · intro st func pfx kw s
    rfl
  · intro st func pfx kw
    rfl

/-- Witness for C4: a string mapping entry after one valid mapping raises
the non-string-iterable `TypeError`; a string routes argument and a
non-iterable routes argument raise `TypeError` in `add_list`. -/
theorem claim_C4_witness :
    ((Routes.add emptyRoutesState "r" 0
        (some [PyIter.iter ["a"], PyIter.pystr "oops"]) true []).2 =
      some (PyErr.typeErrorNonStringIterable "oops") ∧
      (PyErr.typeErrorNonStringIterable "oops").isTypeError = true) ∧
    (Routes.add_list emptyRoutesState (PyIter.pystr "xs") 0 none []).2 =
      some (PyErr.typeErrorNonStringIterable "xs") ∧
    (Routes.add_list emptyRoutesState PyIter.notIter 0 none []).2 =
      some PyErr.typeErrorNotIterable :=
  ⟨claim_C4.1 emptyRoutesState "r" 0 true [] [PyIter.iter ["a"]] []
      (PyIter.pystr "oops") (PyErr.typeErrorNonStringIterable "oops")
      (by decide)
      (by intro m hm; refine ⟨⟨["a"], ?_⟩, "r", ?_⟩ <;> (simp at hm; simp [hm]; try decide))
      rfl,
   claim_C4.2.1 emptyRoutesState 0 none [] "xs",
   claim_C4.2.2 emptyRoutesState 0 none []⟩

/-- C10: `Routes.add` is not atomic on error: on a fresh route whose
var-mappings are `k` valid formatting mappings followed by an invalid entry,
the `check_if_list` error is raised only after the route is tracked and the
`k` url entries are appended, so retrying the same route raises the
duplicate `ValueError`. -/
theorem claim_C10 (st : RoutesState) (route : String) (func : Nat) (ae : Bool)
    (kw : KwDict) (good rest : List Mapping) (bad : Mapping) (err : PyErr)
    (hfresh : route ∉ st.tracked)
    (hgood : ∀ m ∈ good, (∃ xs, m = PyIter.iter xs) ∧
      ∃ f, pyFormat route (iterElems m) = Except.ok f)
    (hbad : check_if_list bad = some err) :
    (Routes.add st route func (some (good ++ bad :: rest)) ae kw).2 = some err ∧
    route ∈ (Routes.add st route func (some (good ++ bad :: rest)) ae kw).1.tracked ∧
    (Routes.add st route func (some (good ++ bad :: rest)) ae kw).1.routes.length =
      st.routes.length + good.length ∧
    (∀ (func2 : Nat) (vm2 : Option (List Mapping)) (ae2 : Bool) (kw2 : KwDict),
      (Routes.add (Routes.add st route func (some (good ++ bad :: rest)) ae kw).1
          route func2 vm2 ae2 kw2).2 =
        some (PyErr.valueErrorDuplicate route)) := by
  have hmem : route ∈ (Routes.add st route func (some (good ++ bad :: rest)) ae kw).1.tracked := by
    rw [add_tracked_eq, if_neg hfresh]
    exact List.mem_cons_self _ _
  refine ⟨?_, hmem, ?_, ?_⟩
  · rw [add_fresh_loopNE st route func (good ++ bad :: rest) ae kw hfresh (by simp)]
    exact (addMappingsLoop_progress func ae kw route bad rest err hbad good _ hgood).1
  · rw [add_fresh_loopNE st route func (good ++ bad :: rest) ae kw hfresh (by simp)]
    exact (addMappingsLoop_progress func ae kw route bad rest err hbad good _ hgood).2
  · intro func2 vm2 ae2 kw2
    rw [add_dup _ route func2 vm2 ae2 kw2 hmem]

/-- Witness for C10: route `"r"` with one valid mapping then a non-iterable
entry — the `TypeError` is raised, the route is tracked, one url entry is
appended, and the retry raises the duplicate `ValueError`. -/
theorem claim_C10_witness :
    (Routes.add emptyRoutesState "r" 0
        (some [PyIter.iter ["a"], PyIter.notIter]) true []).2 =
      some PyErr.typeErrorNotIterable ∧
    "r" ∈ (Routes.add emptyRoutesState "r" 0
        (some [PyIter.iter ["a"], PyIter.notIter]) true []).1.tracked ∧
    (Routes.add emptyRoutesState "r" 0
        (some [PyIter.iter ["a"], PyIter.notIter]) true []).1.routes.length =
      ([] : List UrlEntry).length + 1 ∧
    (∀ (func2 : Nat) (vm2 : Option (List Mapping)) (ae2 : Bool) (kw2 : KwDict),
      (Routes.add (Routes.add emptyRoutesState "r" 0
          (some [PyIter.iter ["a"], PyIter.notIter]) true []).1
          "r" func2 vm2 ae2 kw2).2 =
        some (PyErr.valueErrorDuplicate "r")) :=
  claim_C10 emptyRoutesState "r" 0 true [] [PyIter.iter ["a"]] []
    PyIter.notIter PyErr.typeErrorNotIterable (by decide)
    (by intro m hm; refine ⟨⟨["a"], ?_⟩, "r", ?_⟩ <;> (simp at hm; simp [hm]; try decide))
    rfl

/-- C5: `Routes.add_view` raises `AttributeError` and registers nothing when
the view lacks a `routes` attribute; otherwise it registers the view's
routes through `add_list` with the view's optional `prefix` and `add_ending`
attributes. -/
theorem claim_C5 (st : RoutesState) (v : ViewClass) (kw : KwDict) :
    (v.routesAttr = none →
      Routes.add_view st v kw = (st, some (PyErr.attributeErrorNoRoutes v.name))) ∧
    (∀ ra, v.routesAttr = some ra →
      dictHas (viewKw v kw) "routes" = false →
      dictHas (viewKw v kw) "func" = false →
      dictHas (viewKw v kw) "prefix" = false →
      Routes.add_view st v kw = Routes.add_list st ra v.func v.pfx (viewKw v kw)) := by
  constructor
  · intro h
    simp [Routes.add_view, h]
  · intro ra h h1 h2 h3
    simp [Routes.add_view, h, h1, h2, h3]

/-- Witness for C5: a view without `routes` raises `AttributeError` leaving
the state unchanged; a view with a `routes` table, `prefix` and
`add_ending = False` goes through `add_list` with them. -/
theorem claim_C5_witness :
    Routes.add_view emptyRoutesState
        { name := "V", routesAttr := none, pfx := none,
          addEndingAttr := none, func := 0 } [] =
      (emptyRoutesState, some (PyErr.attributeErrorNoRoutes "V")) ∧
    Routes.add_view emptyRoutesState
        { name := "W",
          routesAttr := some (PyIter.iter [{ pattern := "p", map := none, kwargs := none }]),
          pfx := some "workload", addEndingAttr := some false, func := 1 } [] =
      Routes.add_list emptyRoutesState
        (PyIter.iter [{ pattern := "p", map := none, kwargs := none }]) 1
        (some "workload") (viewKw
          { name := "W",
            routesAttr := some (PyIter.iter [{ pattern := "p", map := none, kwargs := none }]),
            pfx := some "workload", addEndingAttr := some false, func := 1 } []) :=
  ⟨(claim_C5 emptyRoutesState
      { name := "V", routesAttr := none, pfx := none,
        addEndingAttr := none, func := 0 } []).1 rfl,
   (claim_C5 emptyRoutesState
      { name := "W",
        routesAttr := some (PyIter.iter [{ pattern := "p", map := none, kwargs := none }]),
        pfx := some "workload", addEndingAttr := some false, func := 1 } []).2
      (PyIter.iter [{ pattern := "p", map := none, kwargs := none }]) rfl
      (by decide) (by decide) (by decide)⟩

/-- C6 (code bug): with `ROUTE_AUTO_CREATE` set to a value outside
`acceptable_routes`, `Routes.__init__` reaches the `raise ValueError(...)`
statement of line 60, but building the message evaluates
`settings.route_auto_create` — a lower-case attribute Django settings never
define — so the constructor actually raises `AttributeError`, not the
`ValueError` naming the invalid and valid options. -/
theorem claim_C6 :
    Routes.init { ROUTE_AUTO_CREATE := some "bogus_option" } =
      Except.error (PyErr.attributeError "route_auto_create") ∧
    ("bogus_option" ∈ Routes.acceptable_routes) = False := by
  exact ⟨rfl, by simp [Routes.acceptable_routes]⟩

theorem dictGet_dictSet (k : String) (v : KwVal) (kp : String) :
    ∀ d : KwDict, dictGet (dictSet d k v) kp =
      if k = kp then some v else dictGet d kp := by
  intro d
  induction d with
  | nil => by_cases h : k = kp <;> simp [dictGet, dictSet, h]
  | cons p d ih =>
    by_cases h1 : p.1 = k
    · by_cases h2 : k = kp
      · subst h2
        simp [dictSet, h1, dictGet]
      · have h3 : p.1 ≠ kp := by rw [h1]; exact h2
        simp [dictSet, h1, dictGet, h2, h3]
    · rw [show dictSet (p :: d) k v = p :: dictSet d k v from by simp [dictSet, h1]]
      by_cases h2 : k = kp
      · subst h2
        have h3 : p.1 ≠ k := h1
        simp [dictGet, h3, ih]
      · by_cases h3 : p.1 = kp
        · simp [dictGet, h3, h2]
        · simp [dictGet, h3, h2, ih]

theorem dictGet_none_of_not_mem (k : String) :
    ∀ d : KwDict, k ∉ d.map Prod.fst → dictGet d k = none := by
  intro d
  induction d with
  | nil => intro _; rfl
  | cons p d ih =>
    intro h
    have h1 : p.1 ≠ k := by
      intro he
      exact h (by rw [← he]; simp)
    have h2 : k ∉ d.map Prod.fst := fun hc => h (by simp [hc])
    simp [dictGet, h1, ih h2]

theorem mergeList_get (k : String) :
    ∀ (d kw : KwDict), (d.map Prod.fst).Nodup →
    dictGet (mergeList kw d) k =
      match dictGet d k with
      | some v => some v
      | none => dictGet kw k := by
  intro d
  induction d with
  | nil => intro kw _; simp [mergeList, dictGet]
  | cons p d ih =>
    intro kw hnd
    rw [List.map_cons] at hnd
    obtain ⟨hh, ht⟩ := List.nodup_cons.mp hnd
    have hstep : mergeList kw (p :: d) = mergeList (dictSet kw p.1 p.2) d := rfl
    rw [hstep, ih (dictSet kw p.1 p.2) ht]
    by_cases h1 : p.1 = k
    · have hnone : dictGet d k = none :=
        dictGet_none_of_not_mem k d (by rw [← h1]; exact hh)
      simp [dictGet, h1, hnone, dictGet_dictSet]
    · cases hd : dictGet d k with
      | some v => simp [dictGet, h1, hd]
      | none => simp [dictGet, h1, hd, dictGet_dictSet, h1]

/-- C7: `Routes.add_list` checks each route dictionary in turn: one whose
`kwargs` value is not a dict raises `TypeError`; otherwise the route is
registered through `add` (via Python call binding) with the pattern
`'{prefix}/{pattern}'` when a prefix is given (the bare pattern when it is
`None`) and with the per-route kwargs entries overriding the same-named
call-level kwargs entries, after which the loop continues with the
remaining routes.  The first five conjuncts are a base case plus a step
recurrence at an arbitrary state, so together they determine the treatment
of the route dictionary at every position of the list. -/
theorem claim_C7 (st : RoutesState) (func : Nat) (pfx : Option String) (kw : KwDict) :
    (addListLoop func pfx kw st [] = (st, none)) ∧
    (∀ (rd : RouteDict) (rds : List RouteDict), rd.kwargs = some KwField.nondict →
      addListLoop func pfx kw st (rd :: rds) =
        (st, some PyErr.typeErrorKwargsNotDict)) ∧
    (∀ (rd : RouteDict) (rds : List RouteDict) (merged : KwDict)
        (st2 : RoutesState) (e : PyErr),
      mergeKw kw rd.kwargs = Except.ok merged →
      callAddKw st (patternWithPfx pfx rd.pattern) func (some (rd.map.getD []))
          merged = (st2, some e) →
      addListLoop func pfx kw st (rd :: rds) = (st2, some e)) ∧
    (∀ (rd : RouteDict) (rds : List RouteDict) (merged : KwDict)
        (st2 : RoutesState),
      mergeKw kw rd.kwargs = Except.ok merged →
      callAddKw st (patternWithPfx pfx rd.pattern) func (some (rd.map.getD []))
          merged = (st2, none) →
      addListLoop func pfx kw st (rd :: rds) = addListLoop func pfx kw st2 rds) ∧
    (∀ rds : List RouteDict,
      Routes.add_list st (PyIter.iter rds) func pfx kw =
        addListLoop func pfx kw st rds) ∧
    (mergeKw kw none = Except.ok kw ∧
      ∀ d : KwDict, mergeKw kw (some (KwField.dict d)) = Except.ok (mergeList kw d)) ∧
    (∀ p pat, patternWithPfx (some p) pat = p ++ "/" ++ pat ∧
      patternWithPfx none pat = pat) ∧
    (∀ (d : KwDict) (k : String), (d.map Prod.fst).Nodup →
      (∀ v, dictGet d k = some v → dictGet (mergeList kw d) k = some v) ∧
      (dictGet d k = none → dictGet (mergeList kw d) k = dictGet kw k)) := by
  refine ⟨rfl, ?_, ?_, ?_, ?_, ⟨rfl, fun d => rfl⟩, fun p pat => ⟨rfl, rfl⟩, ?_⟩
  · intro rd rds h
    simp [addListLoop, mergeKw, h]
  · intro rd rds merged st2 e hmerge hcall
    simp only [addListLoop, hmerge, hcall]
  · intro rd rds merged st2 hmerge hcall
    simp only [addListLoop, hmerge, hcall]
  · intro rds
    rfl
  · intro d k hnd
    constructor
    · intro v hv
      rw [mergeList_get k d kw hnd, hv]
    · intro hv
      rw [mergeList_get k d kw hnd, hv]

/-- Witness for C7 at concrete inputs, on a non-empty registry state so the
step facts are exercised away from the head of an `add_list` call: a
non-dict `kwargs` raises the `TypeError` with a route still following; a
route dictionary with merged kwargs steps to the matching `add` call and
the loop continues with the rest; `add_list` dispatches to the loop; the
per-route kwargs value wins over the call-level one. -/
theorem claim_C7_witness :
    addListLoop 0 (some "workload") [("a", KwVal.s "y")]
        { routes := [], tracked := ["x"] }
        [{ pattern := "b", map := none, kwargs := some KwField.nondict },
         { pattern := "q", map := none, kwargs := none }] =
      ({ routes := [], tracked := ["x"] }, some PyErr.typeErrorKwargsNotDict) ∧
    addListLoop 0 (some "workload") [("a", KwVal.s "y")]
        { routes := [], tracked := ["x"] }
        [{ pattern := "p", map := none,
           kwargs := some (KwField.dict [("a", KwVal.s "x")]) },
         { pattern := "q", map := none, kwargs := none }] =
      addListLoop 0 (some "workload") [("a", KwVal.s "y")]
        (callAddKw { routes := [], tracked := ["x"] }
          (patternWithPfx (some "workload") "p") 0 (some [])
          (mergeList [("a", KwVal.s "y")] [("a", KwVal.s "x")])).1
        [{ pattern := "q", map := none, kwargs := none }] ∧
    Routes.add_list { routes := [], tracked := ["x"] }
        (PyIter.iter [{ pattern := "q", map := none, kwargs := none }]) 0
        (some "workload") [("a", KwVal.s "y")] =
      addListLoop 0 (some "workload") [("a", KwVal.s "y")]
        { routes := [], tracked := ["x"] }
        [{ pattern := "q", map := none, kwargs := none }] ∧
    dictGet (mergeList [("a", KwVal.s "y")] [("a", KwVal.s "x")]) "a" =
      some (KwVal.s "x") :=
  ⟨(claim_C7 { routes := [], tracked := ["x"] } 0 (some "workload")
      [("a", KwVal.s "y")]).2.1
      { pattern := "b", map := none, kwargs := some KwField.nondict }
      [{ pattern := "q", map := none, kwargs := none }] rfl,
   (claim_C7 { routes := [], tracked := ["x"] } 0 (some "workload")
      [("a", KwVal.s "y")]).2.2.2.1
      { pattern := "p", map := none,
        kwargs := some (KwField.dict [("a", KwVal.s "x")]) }
      [{ pattern := "q", map := none, kwargs := none }]
      (mergeList [("a", KwVal.s "y")] [("a", KwVal.s "x")])
      (callAddKw { routes := [], tracked := ["x"] }
        (patternWithPfx (some "workload") "p") 0 (some [])
        (mergeList [("a", KwVal.s "y")] [("a", KwVal.s "x")])).1
      rfl (by decide),
   (claim_C7 { routes := [], tracked := ["x"] } 0 (some "workload")
      [("a", KwVal.s "y")]).2.2.2.2.1
      [{ pattern := "q", map := none, kwargs := none }],
   ((claim_C7 { routes := [], tracked := ["x"] } 0 (some "workload")
      [("a", KwVal.s "y")]).2.2.2.2.2.2.2
      [("a", KwVal.s "x")] "a" (by decide)).1 (KwVal.s "x") (by decide)⟩

theorem runAdds_tracked_mem (cs : List AddCall) : ∀ (st : RoutesState) (x : String),
    x ∈ (runAdds st cs).tracked ↔ x ∈ st.tracked ∨ x ∈ cs.map AddCall.route := by
  induction cs with
  | nil => intro st x; simp [runAdds]
  | cons c cs ih =>
    intro st x
    rw [show runAdds st (c :: cs) =
      runAdds (Routes.add st c.route c.func c.var_mappings c.add_ending c.kw).1 cs from rfl]
    rw [ih, add_tracked_mem]
    simp only [List.map_cons, List.mem_cons]
    tauto

theorem runAdds_routes_grow (cs : List AddCall) : ∀ st : RoutesState,
    ∃ t, (runAdds st cs).routes = st.routes ++ t := by
  induction cs with
  | nil => intro st; exact ⟨[], by simp [runAdds]⟩
  | cons c cs ih =>
    intro st
    obtain ⟨t1, ht1⟩ := add_routes_grow st c.route c.func c.var_mappings c.add_ending c.kw
    obtain ⟨t2, ht2⟩ :=
      ih (Routes.add st c.route c.func c.var_mappings c.add_ending c.kw).1
    refine ⟨t1 ++ t2, ?_⟩
    rw [show runAdds st (c :: cs) =
      runAdds (Routes.add st c.route c.func c.var_mappings c.add_ending c.kw).1 cs from rfl]
    rw [ht2, ht1, List.append_assoc]

/-- C8: after any sequence of `Routes.add` calls the tracked set holds
exactly the initially-tracked strings plus the route strings passed to the
calls, the routes list only grows (the prior entries stay as a prefix), and
a call whose route string occurred earlier in the sequence (or was already
tracked) raises the duplicate `ValueError` rather than accepting the route
again. -/
theorem claim_C8 (st : RoutesState) (cs : List AddCall) :
    (∀ x, x ∈ (runAdds st cs).tracked ↔
      x ∈ st.tracked ∨ x ∈ cs.map AddCall.route) ∧
    (∃ t, (runAdds st cs).routes = st.routes ++ t) ∧
    (∀ (cs1 : List AddCall) (c : AddCall) (cs2 : List AddCall),
      cs = cs1 ++ c :: cs2 →
      c.route ∈ st.tracked ∨ c.route ∈ cs1.map AddCall.route →
      (Routes.add (runAdds st cs1) c.route c.func c.var_mappings
          c.add_ending c.kw).2 = some (PyErr.valueErrorDuplicate c.route)) := by
  refine ⟨runAdds_tracked_mem cs st, runAdds_routes_grow cs st, ?_⟩
  intro cs1 c cs2 _ hdup
  have hmem : c.route ∈ (runAdds st cs1).tracked :=
    (runAdds_tracked_mem cs1 st c.route).mpr hdup
  rw [add_dup _ c.route c.func c.var_mappings c.add_ending c.kw hmem]

/-- Witness for C8: running two adds of the same route `"r"` from the empty
registry tracks `"r"`, grows the routes list from `[]`, and makes the second
call raise the duplicate `ValueError`. -/
theorem claim_C8_witness :
    "r" ∈ (runAdds emptyRoutesState
      [⟨"r", 0, none, true, []⟩, ⟨"r", 1, none, true, []⟩]).tracked ∧
    (∃ t, (runAdds emptyRoutesState
      [⟨"r", 0, none, true, []⟩, ⟨"r", 1, none, true, []⟩]).routes = [] ++ t) ∧
    (Routes.add (runAdds emptyRoutesState [⟨"r", 0, none, true, []⟩])
      "r" 1 none true []).2 = some (PyErr.valueErrorDuplicate "r") :=
  ⟨((claim_C8 emptyRoutesState
      [⟨"r", 0, none, true, []⟩, ⟨"r", 1, none, true, []⟩]).1 "r").mpr
      (Or.inr (by decide)),
   (claim_C8 emptyRoutesState
      [⟨"r", 0, none, true, []⟩, ⟨"r", 1, none, true, []⟩]).2.1,
   (claim_C8 emptyRoutesState
      [⟨"r", 0, none, true, []⟩, ⟨"r", 1, none, true, []⟩]).2.2
      [⟨"r", 0, none, true, []⟩] ⟨"r", 1, none, true, []⟩ [] rfl
      (Or.inr (by decide))⟩

theorem lookupAttr_inherited (i : RInstance) (h : i.instAttrs = []) :
    lookupAttr i "tracked" = some PyRef.trackedSetRef ∧
    lookupAttr i "routes" = some PyRef.routesListRef := by
  obtain ⟨cls, attrs⟩ := i
  simp only at h
  subst h
  cases cls <;> exact ⟨rfl, rfl⟩

theorem addVia_resolved (h : Heap) (i : RInstance) (hi : i.instAttrs = [])
    (route : String) (f : Nat) (vm : Option (List Mapping)) (ae : Bool)
    (kw : KwDict) :
    Heap.addVia h i route f vm ae kw =
      (⟨(Routes.add ⟨h.routesObj, h.trackedObj⟩ route f vm ae kw).1.routes,
        (Routes.add ⟨h.routesObj, h.trackedObj⟩ route f vm ae kw).1.tracked⟩,
       (Routes.add ⟨h.routesObj, h.trackedObj⟩ route f vm ae kw).2) := by
  obtain ⟨ht, hr⟩ := lookupAttr_inherited i hi
  simp [Heap.addVia, ht, hr]

/-- C9: `routes` and `tracked` are class-level attributes of `Routes`, and
`LazyRoutes` defines neither, so attribute lookup on any instance of either
class — in particular the module-level `lazy_routes` and `routes` objects —
resolves to the same two registry objects; a route added through one
instance is visible through every other, and adding the same unformatted
route through a second instance raises the duplicate `ValueError`. -/
theorem claim_C9 (h : Heap) (i1 i2 : RInstance) (route : String)
    (f1 f2 : Nat) (vm1 vm2 : Option (List Mapping)) (ae1 ae2 : Bool)
    (kw1 kw2 : KwDict) (h1 : i1.instAttrs = []) (h2 : i2.instAttrs = []) :
    lookupAttr i1 "routes" = some PyRef.routesListRef ∧
    lookupAttr i2 "routes" = some PyRef.routesListRef ∧
    lookupAttr i1 "tracked" = some PyRef.trackedSetRef ∧
    lookupAttr i2 "tracked" = some PyRef.trackedSetRef ∧
    route ∈ (Heap.addVia h i1 route f1 vm1 ae1 kw1).1.trackedObj ∧
    (Heap.addVia (Heap.addVia h i1 route f1 vm1 ae1 kw1).1 i2 route f2 vm2
        ae2 kw2).2 = some (PyErr.valueErrorDuplicate route) := by
  obtain ⟨ht1, hr1⟩ := lookupAttr_inherited i1 h1
  obtain ⟨ht2, hr2⟩ := lookupAttr_inherited i2 h2
  have hmem : route ∈ (Heap.addVia h i1 route f1 vm1 ae1 kw1).1.trackedObj := by
    rw [addVia_resolved h i1 h1 route f1 vm1 ae1 kw1]
    exact (add_tracked_mem _ route f1 vm1 ae1 kw1 route).mpr (Or.inl rfl)
  refine ⟨hr1, hr2, ht1, ht2, hmem, ?_⟩
  rw [addVia_resolved _ i2 h2 route f2 vm2 ae2 kw2]
  have hdup := add_dup
    ⟨(Heap.addVia h i1 route f1 vm1 ae1 kw1).1.routesObj,
     (Heap.addVia h i1 route f1 vm1 ae1 kw1).1.trackedObj⟩
    route f2 vm2 ae2 kw2 hmem
  rw [hdup]

/-- Witness for C9: the module-level `lazy_routes` (a `LazyRoutes` instance)
and `routes` (a `Routes` instance) objects resolve to the same registry, so
adding `"r"` through `lazy_routes` and then through `routes` raises the
duplicate `ValueError` on the second add. -/
theorem claim_C9_witness :
    lookupAttr lazy_routes "routes" = some PyRef.routesListRef ∧
    lookupAttr routesInstance "routes" = some PyRef.routesListRef ∧
    lookupAttr lazy_routes "tracked" = some PyRef.trackedSetRef ∧
    lookupAttr routesInstance "tracked" = some PyRef.trackedSetRef ∧
    "r" ∈ (Heap.addVia { routesObj := [], trackedObj := [] } lazy_routes
      "r" 0 none true []).1.trackedObj ∧
    (Heap.addVia (Heap.addVia { routesObj := [], trackedObj := [] } lazy_routes
        "r" 0 none true []).1 routesInstance "r" 1 none true []).2 =
      some (PyErr.valueErrorDuplicate "r") :=
  claim_C9 { routesObj := [], trackedObj := [] } lazy_routes routesInstance
    "r" 0 1 none none true true [] [] rfl rfl
